import Mathlib

/-!
Shallow embedding of the face-animation core of `src/face_display.py`
(class `FaceDisplay`), with the default construction parameters used by
`src/dashboard_with_rps.py` (`width=640`, `height=320`).

Machine floats of the Python source are modelled as exact rationals and
decimal literals of the source are written as the equal fractions
(`0.18 = 9/50`, `0.36 = 9/25`, `0.5 = 1/2`, `0.6 = 3/5`, `0.08 = 2/25`,
`0.26 = 13/50`); the transcendental idle-motion functions (`math.sin`,
`math.cos`) are modelled over the reals.  Tkinter canvas calls are side
effects on pixels only and are modelled by returning the values that the
source would draw.
-/

namespace FaceDisplay

/-- Default canvas width (`width: int = 640`). -/
def width : ℚ := 640

/-- Default canvas height (`height: int = 320`). -/
def height : ℚ := 320

/-- Source line 23: `self.eye_radius = min(width, height) * 0.18`. -/
def eye_radius : ℚ := min width height * (9/50)

/-- Source line 24: `self.pupil_radius = max(6, int(self.eye_radius * 0.36))`.
Python `int()` truncates; the operand is positive so truncation is `Int.floor`. -/
def pupil_radius : ℚ := max 6 ((⌊eye_radius * (9/25)⌋ : ℤ) : ℚ)

/-- Source line 33: `self.pan_min = 0.0`. -/
def pan_min : ℚ := 0

/-- Source line 34: `self.pan_max = 180.0`. -/
def pan_max : ℚ := 180

/-- Source line 35: `self.tilt_min = 30.0`. -/
def tilt_min : ℚ := 30

/-- Source line 36: `self.tilt_max = 150.0`. -/
def tilt_max : ℚ := 150

/-- Source line 38: `self.pupil_travel = self.eye_radius - self.pupil_radius - 6`. -/
def pupil_travel : ℚ := eye_radius - pupil_radius - 6

/-- Source line 49: `self.smooth_factor = 0.18`. -/
def smooth_factor : ℚ := 9/50

/-- Source lines 69-77, `FaceDisplay.angle_to_offset`:

    pn = (pan - self.pan_min) / (self.pan_max - self.pan_min)
    tn = (tilt - self.tilt_min) / (self.tilt_max - self.tilt_min)
    px = (pn - 0.5) * 2.0
    py = (tn - 0.5) * 2.0
    py = -py
    px = max(-1.0, min(1.0, px))
    py = max(-1.0, min(1.0, py))
    return px * self.pupil_travel, py * (self.pupil_travel * 0.6)
-/
def angle_to_offset (pan tilt : ℚ) : ℚ × ℚ :=
  let pn := (pan - pan_min) / (pan_max - pan_min)
  let tn := (tilt - tilt_min) / (tilt_max - tilt_min)
  let px := (pn - 1/2) * 2
  let py := (tn - 1/2) * 2
  let py := -py
  let px := max (-1) (min 1 px)
  let py := max (-1) (min 1 py)
  (px * pupil_travel, py * (pupil_travel * (3/5)))

/-- Reference mapping, modelled from the words of claim C1 (and of the spec
section "Angle-to-offset mapping"): normalize pan by `(pan - 0)/180` and tilt
by `(tilt - 30)/120`, convert each to the centered range `[-1,1]`, negate the
vertical axis, clamp each axis to `[-1,1]`, then scale the horizontal axis by
`pupil_travel` and the vertical axis by `0.6 * pupil_travel`. -/
def spec_angle_to_offset (pan tilt : ℚ) : ℚ × ℚ :=
  let pn := (pan - 0) / 180
  let tn := (tilt - 30) / 120
  let px := max (-1) (min 1 ((pn - 1/2) * 2))
  let py := max (-1) (min 1 (-((tn - 1/2) * 2)))
  (px * pupil_travel, py * ((3/5) * pupil_travel))

theorem pupil_travel_eq : pupil_travel = 158/5 := by
  norm_num [pupil_travel, eye_radius, pupil_radius, width, height]

/-- C1: for every pan and tilt input, `angle_to_offset` coincides with the
reference mapping of the spec (normalize, center, invert vertical axis,
clamp, scale; vertical travel is 60% of horizontal travel); in particular
`angle_to_offset 0 90 = (-pupil_travel, 0)`. -/
theorem C1_angle_to_offset_matches_spec :
    (∀ pan tilt : ℚ, angle_to_offset pan tilt = spec_angle_to_offset pan tilt) ∧
    angle_to_offset 0 90 = (-pupil_travel, 0) := by
  constructor
  · intro pan tilt
    unfold angle_to_offset spec_angle_to_offset
    have h1 : (pan - pan_min) / (pan_max - pan_min) = (pan - 0) / 180 := by
      rw [pan_min, pan_max]; norm_num
    have h2 : (tilt - tilt_min) / (tilt_max - tilt_min) = (tilt - 30) / 120 := by
      rw [tilt_min, tilt_max]; norm_num
    rw [h1, h2, mul_comm pupil_travel (3/5 : ℚ)]
  · unfold angle_to_offset
    rw [pan_min, pan_max, tilt_min, tilt_max, pupil_travel_eq]
    norm_num

/-- Clamping to `[-1, 1]` as performed in `angle_to_offset`. -/
theorem clamp_mem (x : ℚ) :
    -1 ≤ max (-1 : ℚ) (min 1 x) ∧ max (-1 : ℚ) (min 1 x) ≤ 1 :=
  ⟨le_max_left _ _, max_le (by norm_num) (min_le_left _ _)⟩

/-- C2: for every pan in `[pan_min, pan_max]` and tilt in `[tilt_min, tilt_max]`,
the offset `(dx, dy)` returned by `angle_to_offset` satisfies
`-pupil_travel ≤ dx ≤ pupil_travel` and
`-(0.6 * pupil_travel) ≤ dy ≤ 0.6 * pupil_travel`. -/
theorem C2_offset_in_rectangle (pan tilt : ℚ)
    (h1 : pan_min ≤ pan) (h2 : pan ≤ pan_max)
    (h3 : tilt_min ≤ tilt) (h4 : tilt ≤ tilt_max) :
    -pupil_travel ≤ (angle_to_offset pan tilt).1 ∧
    (angle_to_offset pan tilt).1 ≤ pupil_travel ∧
    -((3/5) * pupil_travel) ≤ (angle_to_offset pan tilt).2 ∧
    (angle_to_offset pan tilt).2 ≤ (3/5) * pupil_travel := by
  have htravel : (0:ℚ) ≤ pupil_travel := by rw [pupil_travel_eq]; norm_num
  unfold angle_to_offset
  have hx := clamp_mem (((pan - pan_min) / (pan_max - pan_min) - 1/2) * 2)
  have hy := clamp_mem (-(((tilt - tilt_min) / (tilt_max - tilt_min) - 1/2) * 2))
  refine ⟨?_, ?_, ?_, ?_⟩ <;> simp only [] <;> nlinarith [hx.1, hx.2, hy.1, hy.2]

/-- Witness for C2 at the concrete in-domain input pan = 0, tilt = 90. -/
theorem C2_witness :
    -pupil_travel ≤ (angle_to_offset 0 90).1 ∧
    (angle_to_offset 0 90).1 ≤ pupil_travel ∧
    -((3/5) * pupil_travel) ≤ (angle_to_offset 0 90).2 ∧
    (angle_to_offset 0 90).2 ≤ (3/5) * pupil_travel :=
  C2_offset_in_rectangle 0 90 (by norm_num [pan_min]) (by norm_num [pan_max])
    (by norm_num [tilt_min]) (by norm_num [tilt_max])

/-- Source line 114 (and 115), one exponential-smoothing update:
`self.smooth_pan += (pan - self.smooth_pan) * self.smooth_factor`. -/
def smooth_step (s target : ℚ) : ℚ := s + (target - s) * smooth_factor

/-- Source lines 112-117, `FaceDisplay.update_from_angles`: smooth both angles
toward the targets, then map the smoothed angles to a pupil offset.  Returns
the new `(smooth_pan, smooth_tilt)` pair and the offset passed to
`_apply_offsets`. -/
def update_from_angles (sp st pan tilt : ℚ) : (ℚ × ℚ) × (ℚ × ℚ) :=
  let sp2 := smooth_step sp pan
  let st2 := smooth_step st tilt
  ((sp2, st2), angle_to_offset sp2 st2)

/-- Iterated smoothing updates with a constant target angle. -/
def smoothIter : ℕ → ℚ → ℚ → ℚ
  | 0, s, _ => s
  | n + 1, s, target => smooth_step (smoothIter n s target) target

theorem smoothIter_sub (n : ℕ) (s target : ℚ) :
    smoothIter n s target - target = (41/50 : ℚ) ^ n * (s - target) := by
  induction n with
  | zero => simp [smoothIter]
  | succ n ih =>
    have hstep : smoothIter (n + 1) s target
        = smooth_step (smoothIter n s target) target := rfl
    have h2 : smoothIter n s target = target + (41/50 : ℚ) ^ n * (s - target) := by
      linarith [ih]
    rw [hstep, smooth_step, smooth_factor, h2]
    ring

theorem smoothIter50_bound (s target : ℚ) (h : |s - target| ≤ 180) :
    |smoothIter 50 s target - target| ≤ 1/100 := by
  rw [smoothIter_sub, abs_mul, abs_pow]
  have h1 : |(41/50 : ℚ)| = 41/50 := by norm_num
  rw [h1]
  have h2 : (41/50 : ℚ) ^ 50 * |s - target| ≤ (41/50 : ℚ) ^ 50 * 180 := by
    have : (0:ℚ) ≤ (41/50 : ℚ) ^ 50 := by positivity
    exact mul_le_mul_of_nonneg_left h this
  have h3 : (41/50 : ℚ) ^ 50 * 180 ≤ 1/100 := by norm_num
  linarith

/-- Counterexample to C3 as stated: with target pan 180 and starting smoothed
pan 0 (both inside the configured pan domain `[0, 180]`), 50 smoothing ticks
at factor 0.18 leave an error of `180 * (41/50)^50 ≈ 8.83e-3`, which is NOT
within `1e-3` of the target. -/
theorem C3_counterexample : ¬ (|smoothIter 50 0 180 - 180| ≤ 1/1000) := by
  rw [show smoothIter 50 0 180 - 180 = (41/50 : ℚ) ^ 50 * (0 - 180) from
    smoothIter_sub 50 0 180]
  rw [show (41/50 : ℚ) ^ 50 * (0 - 180) = -(180 * (41/50 : ℚ) ^ 50) by ring]
  rw [abs_neg, abs_of_nonneg (by positivity)]
  norm_num

/-- C3 (amended): for every constant target angle in the configured domain and
every starting smoothed angle in the configured domain (pan `[0,180]`, tilt
`[30,150]`), iterating `smoothed := smoothed + (target - smoothed) * 0.18`
for 50 ticks brings the smoothed angle within `1e-2` (not `1e-3`) of the
target. -/
theorem C3_smoothing_converges :
    (∀ s target : ℚ, 0 ≤ s → s ≤ 180 → 0 ≤ target → target ≤ 180 →
      |smoothIter 50 s target - target| ≤ 1/100) ∧
    (∀ s target : ℚ, 30 ≤ s → s ≤ 150 → 30 ≤ target → target ≤ 150 →
      |smoothIter 50 s target - target| ≤ 1/100) := by
  constructor
  · intro s target hs1 hs2 ht1 ht2
    exact smoothIter50_bound s target (abs_le.mpr ⟨by linarith, by linarith⟩)
  · intro s target hs1 hs2 ht1 ht2
    exact smoothIter50_bound s target (abs_le.mpr ⟨by linarith, by linarith⟩)

/-- Witness for C3 (amended) at the extreme corners of both domains. -/
theorem C3_witness :
    |smoothIter 50 0 180 - 180| ≤ 1/100 ∧ |smoothIter 50 30 150 - 150| ≤ 1/100 :=
  ⟨C3_smoothing_converges.1 0 180 (by norm_num) (by norm_num) (by norm_num)
      (by norm_num),
   C3_smoothing_converges.2 30 150 (by norm_num) (by norm_num) (by norm_num)
      (by norm_num)⟩

/-- Counterexample to C7 as stated: `update_from_angles` applies no clamping to
the supplied targets.  From the initial smoothed pan 90, a single update with
the out-of-domain target pan = 1000 yields smoothed pan
`90 + (1000 - 90) * 0.18 = 253.8`, outside `[0, 180]`. -/
theorem C7_counterexample :
    (update_from_angles 90 90 1000 90).1.1 = 1269/5 ∧
    ¬ ((update_from_angles 90 90 1000 90).1.1 ≤ 180) := by
  constructor <;> norm_num [update_from_angles, smooth_step, smooth_factor]

/-- C7 (amended): supplied targets are NOT clamped by the smoothing update
(out-of-domain targets drag the smoothed angle out of the domain; only the
mapped offset is clamped later, inside `angle_to_offset`).  When the supplied
targets do lie in the configured domains, every smoothing update keeps
smoothed pan within `[0, 180]` and smoothed tilt within `[30, 150]`. -/
theorem C7_smoothed_in_domain :
    (∀ sp pan : ℚ, 0 ≤ sp → sp ≤ 180 → 0 ≤ pan → pan ≤ 180 →
      0 ≤ smooth_step sp pan ∧ smooth_step sp pan ≤ 180) ∧
    (∀ st tilt : ℚ, 30 ≤ st → st ≤ 150 → 30 ≤ tilt → tilt ≤ 150 →
      30 ≤ smooth_step st tilt ∧ smooth_step st tilt ≤ 150) := by
  unfold smooth_step smooth_factor
  constructor
  · intro sp pan h1 h2 h3 h4
    constructor <;> nlinarith
  · intro st tilt h1 h2 h3 h4
    constructor <;> nlinarith

/-- Witness for C7 (amended) at the initial smoothed angles (90, 90) with
in-domain targets pan = 0, tilt = 150. -/
theorem C7_witness :
    (0 ≤ smooth_step 90 0 ∧ smooth_step 90 0 ≤ 180) ∧
    (30 ≤ smooth_step 90 150 ∧ smooth_step 90 150 ≤ 150) :=
  ⟨C7_smoothed_in_domain.1 90 0 (by norm_num) (by norm_num) (by norm_num)
      (by norm_num),
   C7_smoothed_in_domain.2 90 150 (by norm_num) (by norm_num) (by norm_num)
      (by norm_num)⟩

/-- Blink phase as named by the spec.  The source keeps only a boolean
`self.blinking`; the four phases correspond to the branches of the blink
section of `_loop` (lines 128-143): `Closing` for elapsed < 0.08, `Closed`
for elapsed in [0.08, 0.18), `Opening` for elapsed in [0.18, 0.26), and
`Open` when not blinking or when the blink completes (elapsed >= 0.26). -/
inductive BlinkPhase
  | Open
  | Closing
  | Closed
  | Opening
deriving DecidableEq, Repr

/-- Blink-related mutable fields of `FaceDisplay`: `self.blinking`,
`self.blink_start`, `self.last_blink`, `self.next_blink_in`. -/
structure BlinkState where
  blinking : Bool
  blink_start : ℚ
  last_blink : ℚ
  next_blink_in : ℚ
deriving DecidableEq, Repr

/-- Eyelid coverage drawn for a given time elapsed since `blink_start`,
read off the four branches of `_loop` lines 131-143 (the drawn `prog`
argument of `_draw_blink`; the final branch calls `_clear_blink`, coverage 0):

    if elapsed < 0.08:  prog = min(1.0, elapsed / 0.08)
    elif elapsed < 0.18: prog = 1.0
    elif elapsed < 0.26: prog = max(0.0, 1.0 - (elapsed - 0.18)/0.08)
    else: clear
-/
def blink_coverage (elapsed : ℚ) : ℚ :=
  if elapsed < 2/25 then min 1 (elapsed / (2/25))
  else if elapsed < 9/50 then 1
  else if elapsed < 13/50 then max 0 (1 - (elapsed - 9/50) / (2/25))
  else 0

/-- Blink section of one `_loop` tick, source lines 124-143.  `fresh` is the
value that `random.uniform(3.0, 12.0)` returns if the blink completes on this
tick.  Returns the new blink state, the eyelid coverage shown after the tick,
and the phase (the branch taken, named as in the spec). -/
def blinkTick (s : BlinkState) (now fresh : ℚ) : BlinkState × ℚ × BlinkPhase :=
  let s := if now - s.last_blink > s.next_blink_in ∧ s.blinking = false then
    { s with blinking := true, blink_start := now } else s
  if s.blinking then
    let elapsed := now - s.blink_start
    if elapsed < 2/25 then (s, min 1 (elapsed / (2/25)), .Closing)
    else if elapsed < 9/50 then (s, 1, .Closed)
    else if elapsed < 13/50 then
      (s, max 0 (1 - (elapsed - 9/50) / (2/25)), .Opening)
    else
      ({ s with blinking := false, last_blink := now, next_blink_in := fresh },
        0, .Open)
  else (s, 0, .Open)

/-- Run successive ticks of the blink section at the given times, collecting
the (coverage, phase) observation of each tick. -/
def blinkRun (s : BlinkState) (nows : List ℚ) (fresh : ℚ) :
    List (ℚ × BlinkPhase) :=
  match nows with
  | [] => []
  | n :: rest =>
    let r := blinkTick s n fresh
    (r.2.1, r.2.2) :: blinkRun r.1 rest fresh

/-- C4: from the Open state with elapsed time forced past the threshold
(last completed blink at time 0, threshold 3 s, first tick at time 4), ticks
spaced at the 60 ms loop interval drive the blink through
Closing, Closed, Opening and back to Open, with coverage 0 at the start and
at the end and 1.0 throughout the hold phase; moreover coverage is 0 at
elapsed 0, equals 1 on the hold phase `[0.08, 0.18)`, is non-decreasing on
the close phase `[0, 0.08)`, non-increasing on the open phase `[0.18, 0.26)`,
0 from 0.26 on, and the coverage drawn by a mid-blink tick is exactly
`blink_coverage` of the elapsed time. -/
theorem C4_blink_cycle :
    blinkRun ⟨false, 0, 0, 3⟩ [4, 4 + 3/50, 4 + 6/50, 4 + 9/50, 4 + 12/50,
        4 + 15/50] 7 =
      [(0, .Closing), (3/4, .Closing), (1, .Closed), (1, .Opening),
        (1/4, .Opening), (0, .Open)] ∧
    blink_coverage 0 = 0 ∧
    (∀ e : ℚ, 2/25 ≤ e → e < 9/50 → blink_coverage e = 1) ∧
    (∀ a b : ℚ, 0 ≤ a → a ≤ b → b < 2/25 →
      blink_coverage a ≤ blink_coverage b) ∧
    (∀ a b : ℚ, 9/50 ≤ a → a ≤ b → b < 13/50 →
      blink_coverage b ≤ blink_coverage a) ∧
    (∀ e : ℚ, 13/50 ≤ e → blink_coverage e = 0) ∧
    (∀ (s : BlinkState) (now fresh : ℚ), s.blinking = true →
      (blinkTick s now fresh).2.1 = blink_coverage (now - s.blink_start)) := by
  refine ⟨by norm_num [blinkRun, blinkTick, min_def, max_def],
    by norm_num [blink_coverage], ?_, ?_, ?_, ?_, ?_⟩
  · intro e h1 h2
    rw [blink_coverage]
    rw [if_neg (by linarith), if_pos h2]
  · intro a b h1 h2 h3
    have ha : a < 2/25 := lt_of_le_of_lt h2 h3
    rw [blink_coverage, blink_coverage, if_pos ha, if_pos h3]
    have : a / (2/25 : ℚ) ≤ b / (2/25 : ℚ) := by
      apply div_le_div_of_nonneg_right h2 <;> norm_num
    exact min_le_min le_rfl this
  · intro a b h1 h2 h3
    have ha : ¬ (a < 2/25 : Prop) := by push_neg; linarith
    have ha2 : ¬ (a < 9/50 : Prop) := by push_neg; linarith
    have hb : ¬ (b < 2/25 : Prop) := by push_neg; linarith
    have hb2 : ¬ (b < 9/50 : Prop) := by push_neg; linarith
    have hab : a < 13/50 := lt_of_le_of_lt h2 h3
    rw [blink_coverage, blink_coverage, if_neg ha, if_neg ha2, if_pos hab,
      if_neg hb, if_neg hb2, if_pos h3]
    have : 1 - (b - 9/50 : ℚ) / (2/25) ≤ 1 - (a - 9/50) / (2/25) := by
      have : (a - 9/50 : ℚ) / (2/25) ≤ (b - 9/50) / (2/25) := by
        apply div_le_div_of_nonneg_right (by linarith) <;> norm_num
      linarith
    exact max_le_max le_rfl this
  · intro e h
    rw [blink_coverage]
    rw [if_neg (by push_neg; linarith), if_neg (by push_neg; linarith),
      if_neg (by push_neg; linarith)]
  · intro s now fresh hb
    simp only [blinkTick, hb, Bool.true_eq_false, and_false, if_false, if_true,
      blink_coverage]
    split_ifs <;> rfl

/-- Witness for C4 instantiating each quantified conjunct at concrete points:
hold coverage at elapsed 0.1, close-phase monotonicity at 0.02 against 0.03,
open-phase monotonicity at 0.2 against 0.24, completion at 0.3, and a
mid-blink tick of a blinking state at elapsed 0.12. -/
theorem C4_witness :
    blink_coverage (1/10) = 1 ∧
    blink_coverage (2/100) ≤ blink_coverage (3/100) ∧
    blink_coverage (24/100) ≤ blink_coverage (2/10) ∧
    blink_coverage (3/10) = 0 ∧
    (blinkTick ⟨true, 4, 0, 3⟩ (4 + 12/100) 7).2.1
      = blink_coverage ((4 + 12/100) - 4) :=
  ⟨C4_blink_cycle.2.2.1 (1/10) (by norm_num) (by norm_num),
   C4_blink_cycle.2.2.2.1 (2/100) (3/100) (by norm_num) (by norm_num)
     (by norm_num),
   C4_blink_cycle.2.2.2.2.1 (2/10) (24/100) (by norm_num) (by norm_num)
     (by norm_num),
   C4_blink_cycle.2.2.2.2.2.1 (3/10) (by norm_num),
   C4_blink_cycle.2.2.2.2.2.2 ⟨true, 4, 0, 3⟩ (4 + 12/100) 7 rfl⟩

/-- Model of Python `random.uniform(a, b)` driven by a unit sample
`u ∈ [0, 1]`: `a + (b - a) * u`. -/
def uniform_draw (a b u : ℚ) : ℚ := a + (b - a) * u

/-- Source line 43: `self.next_blink_in = random.uniform(3.0, 10.0)`
(the draw at initialization). -/
def init_next_blink (u : ℚ) : ℚ := uniform_draw 3 10 u

/-- Source line 143: `self.next_blink_in = random.uniform(3.0, 12.0)`
(the redraw after each completed blink). -/
def redraw_next_blink (u : ℚ) : ℚ := uniform_draw 3 12 u

/-- Counterexample to C8 as stated: the initialization draw uses the range
`[3, 10]` (source line 43), not `[3, 12]`; at the unit sample `u = 1` the
initialization draw yields 10 while a uniform draw from `[3, 12]` yields 12,
so the initialization draw is not a uniform draw from 3 to 12. -/
theorem C8_counterexample :
    init_next_blink 1 = 10 ∧ uniform_draw 3 12 1 = 12 ∧
    init_next_blink 1 ≠ uniform_draw 3 12 1 := by
  refine ⟨by norm_num [init_next_blink, uniform_draw], by norm_num [uniform_draw], ?_⟩
  norm_num [init_next_blink, uniform_draw]

/-- C8 (amended): the interval until the next blink is drawn uniformly from
`[3, 10]` at initialization and uniformly from `[3, 12]` every time it is
redrawn after a completed blink; consequently the stored next-blink interval
always lies in `[3, 12]` seconds (and the completing tick stores exactly the
redraw value). -/
theorem C8_blink_interval_range :
    (∀ u : ℚ, 0 ≤ u → u ≤ 1 →
      3 ≤ init_next_blink u ∧ init_next_blink u ≤ 10 ∧ init_next_blink u ≤ 12) ∧
    (∀ u : ℚ, 0 ≤ u → u ≤ 1 →
      3 ≤ redraw_next_blink u ∧ redraw_next_blink u ≤ 12) ∧
    (∀ (s : BlinkState) (now u : ℚ), s.blinking = true →
      ¬ (now - s.blink_start < 13/50) →
      (blinkTick s now (redraw_next_blink u)).1.next_blink_in
        = redraw_next_blink u) := by
  refine ⟨?_, ?_, ?_⟩
  · intro u h1 h2
    unfold init_next_blink uniform_draw
    refine ⟨by nlinarith, by nlinarith, by nlinarith⟩
  · intro u h1 h2
    unfold redraw_next_blink uniform_draw
    exact ⟨by nlinarith, by nlinarith⟩
  · intro s now u hb hdone
    rw [blinkTick]
    have hcond : ¬ (now - s.last_blink > s.next_blink_in ∧ s.blinking = false) := by
      intro hc
      rw [hb] at hc
      exact absurd hc.2 (by simp)
    rw [if_neg hcond, if_pos hb]
    have h1 : ¬ (now - s.blink_start < 2/25 : Prop) := fun h => hdone (by linarith)
    have h2 : ¬ (now - s.blink_start < 9/50 : Prop) := fun h => hdone (by linarith)
    rw [if_neg h1, if_neg h2, if_neg hdone]

/-- Witness for C8 (amended): the draws at unit sample 1/2 and a completing
blink tick (blinking since time 4, tick at time 4.3). -/
theorem C8_witness :
    (3 ≤ init_next_blink (1/2) ∧ init_next_blink (1/2) ≤ 10 ∧
      init_next_blink (1/2) ≤ 12) ∧
    (3 ≤ redraw_next_blink (1/2) ∧ redraw_next_blink (1/2) ≤ 12) ∧
    (blinkTick ⟨true, 4, 0, 3⟩ (4 + 3/10)
        (redraw_next_blink (1/2))).1.next_blink_in = redraw_next_blink (1/2) :=
  ⟨C8_blink_interval_range.1 (1/2) (by norm_num) (by norm_num),
   C8_blink_interval_range.2.1 (1/2) (by norm_num) (by norm_num),
   C8_blink_interval_range.2.2 ⟨true, 4, 0, 3⟩ (4 + 3/10) (1/2) rfl
     (by norm_num)⟩

/-- Source lines 106-110, `FaceDisplay._idle_offsets`:

    jitter_x = math.sin(t * 0.8) * 2.0 + math.sin(t*1.3)*1.0
    jitter_y = math.cos(t * 1.1) * 1.2
    return jitter_x, jitter_y * 0.6
-/
noncomputable def idle_offsets (t : ℝ) : ℝ × ℝ :=
  let jitter_x := Real.sin (t * (4/5)) * 2 + Real.sin (t * (13/10)) * 1
  let jitter_y := Real.cos (t * (11/10)) * (6/5)
  (jitter_x, jitter_y * (3/5))

/-- Counterexample to C6 as stated: at the in-domain input pan = 0,
tilt = 150 the live path returns the rectangle corner
`(-pupil_travel, -0.6 * pupil_travel)`, whose magnitude is
`pupil_travel * sqrt 1.36 > pupil_travel`.  The offset magnitude is NOT
bounded by the travel radius. -/
theorem C6_counterexample :
    (pupil_travel : ℝ) <
      Real.sqrt (((angle_to_offset 0 150).1 : ℝ) ^ 2 +
        ((angle_to_offset 0 150).2 : ℝ) ^ 2) := by
  have h : angle_to_offset 0 150 = (-(158/5), -(474/25)) := by
    rw [angle_to_offset]
    rw [pan_min, pan_max, tilt_min, tilt_max, pupil_travel_eq]
    norm_num
  rw [h, pupil_travel_eq]
  rw [Real.lt_sqrt (by norm_num)]
  push_cast
  norm_num

/-- C6 (amended): every offset applied to the pupils — whether produced by
`angle_to_offset` from live angles or by `_idle_offsets` — lies in the
rectangle `[-pupil_travel, pupil_travel] × [-0.6 pupil_travel, 0.6 pupil_travel]`
and hence has squared magnitude `dx^2 + dy^2` at most
`(1 + 0.6^2) * pupil_travel^2 = 1.36 * pupil_travel^2` (magnitude at most
`sqrt 1.36 ≈ 1.166` times the travel radius, not 1 times it). -/
theorem C6_offset_magnitude_bound :
    (∀ pan tilt : ℚ,
      (angle_to_offset pan tilt).1 ^ 2 + (angle_to_offset pan tilt).2 ^ 2
        ≤ (34/25) * pupil_travel ^ 2) ∧
    (∀ t : ℝ,
      (idle_offsets t).1 ^ 2 + (idle_offsets t).2 ^ 2
        ≤ (34/25) * (pupil_travel : ℝ) ^ 2) := by
  constructor
  · intro pan tilt
    unfold angle_to_offset
    have hx := clamp_mem (((pan - pan_min) / (pan_max - pan_min) - 1/2) * 2)
    have hy := clamp_mem (-(((tilt - tilt_min) / (tilt_max - tilt_min) - 1/2) * 2))
    set a := max (-1 : ℚ) (min 1 (((pan - pan_min) / (pan_max - pan_min) - 1/2) * 2))
    set b := max (-1 : ℚ) (min 1 (-(((tilt - tilt_min) / (tilt_max - tilt_min) - 1/2) * 2)))
    have ha2 : a ^ 2 ≤ 1 := by nlinarith [hx.1, hx.2]
    have hb2 : b ^ 2 ≤ 1 := by nlinarith [hy.1, hy.2]
    rw [pupil_travel_eq]
    simp only []
    nlinarith [ha2, hb2]
  · intro t
    unfold idle_offsets
    have hs1a := Real.neg_one_le_sin (t * (4/5))
    have hs1b := Real.sin_le_one (t * (4/5))
    have hs2a := Real.neg_one_le_sin (t * (13/10))
    have hs2b := Real.sin_le_one (t * (13/10))
    have hca := Real.neg_one_le_cos (t * (11/10))
    have hcb := Real.cos_le_one (t * (11/10))
    have htr : (pupil_travel : ℝ) = 158/5 := by rw [pupil_travel_eq]; norm_num
    rw [htr]
    simp only []
    nlinarith [hs1a, hs1b, hs2a, hs2b, hca, hcb]

/-- Value read from a `pan_tilt` attribute, as the animation loop sees it:
Python `None`, a numeric angle, or a non-numeric (malformed) object. -/
inductive PyVal
  | pyNone
  | num (q : ℚ)
  | nonNum
deriving DecidableEq, Repr

/-- Result of looking up an attribute on the external angle source:
the attribute may be missing, its access may raise an exception that is not
an `AttributeError` (e.g. a failing property), or it may yield a value. -/
inductive AttrRead
  | missing
  | raises
  | value (v : PyVal)
deriving DecidableEq, Repr

/-- Python `getattr(obj, name, None)` as used on source lines 147-148: a
missing attribute (or an `AttributeError`) yields the `None` default, while
any other exception raised by the access propagates. -/
def getattr_or_none : AttrRead → Except Unit PyVal
  | .missing => .ok .pyNone
  | .raises => .error ()
  | .value v => .ok v

/-- Which motion path a tick takes with the offsets it would feed to
`_apply_offsets` abstracted away: idle motion or the live-angle path. -/
inductive TickPath
  | idle
  | live (pan tilt : ℚ)
deriving DecidableEq, Repr

/-- Source lines 144-157 of `_loop`: read `angle_pan` and `angle_tilt` with
`getattr(…, None)` when `self.pan_tilt` is not `None`; if both values are
non-`None` call `update_from_angles(pan, tilt)` — whose arithmetic raises a
`TypeError` on a non-numeric value — otherwise use idle motion.  An
exception is modelled as `Except.error ()`; error paths abstract from the
partial mutation the source performs before raising. -/
def read_and_dispatch (src : Option (AttrRead × AttrRead)) :
    Except Unit TickPath :=
  match src with
  | none => .ok .idle
  | some (pread, tread) =>
    match getattr_or_none pread with
    | .error e => .error e
    | .ok pan =>
      match getattr_or_none tread with
      | .error e => .error e
      | .ok tilt =>
        match pan, tilt with
        | .pyNone, _ => .ok .idle
        | _, .pyNone => .ok .idle
        | .num p, .num t => .ok (.live p t)
        | _, _ => .error ()

/-- Value a non-raising attribute read produces (`None` for a missing
attribute); meaningless junk on a raising read. -/
def attr_value : AttrRead → PyVal
  | .missing => .pyNone
  | .raises => .pyNone
  | .value v => v

/-- Counterexample to C5 as stated: a non-numeric supplied pan value reaches
the arithmetic of `update_from_angles` and raises (the code only checks the
values against `None`), and an attribute access raising anything other than
an `AttributeError` is not caught by `getattr(…, None)`; in both cases the
tick propagates the exception instead of falling back to idle motion. -/
theorem C5_counterexample :
    read_and_dispatch (some (.value .nonNum, .value (.num 90))) = .error () ∧
    read_and_dispatch (some (.raises, .value (.num 90))) = .error () :=
  ⟨rfl, rfl⟩

/-- C5 (amended): if the external angle source is absent, or both attribute
reads complete without raising and pan or tilt is missing or `None`, the tick
falls back to the idle-motion path and propagates no exception; when both
reads yield numeric values the live path is taken with those values.
Non-numeric present values, and attribute accesses that raise something other
than an `AttributeError`, are not handled and propagate. -/
theorem C5_idle_fallback :
    read_and_dispatch none = Except.ok TickPath.idle ∧
    (∀ a b : AttrRead, a ≠ .raises → b ≠ .raises →
      (attr_value a = .pyNone ∨ attr_value b = .pyNone) →
      read_and_dispatch (some (a, b)) = .ok .idle) ∧
    (∀ (a b : AttrRead) (p t : ℚ), attr_value a = .num p →
      attr_value b = .num t →
      read_and_dispatch (some (a, b)) = .ok (.live p t)) := by
  refine ⟨rfl, ?_, ?_⟩
  · intro a b ha hb hnone
    cases a with
    | raises => exact absurd rfl ha
    | missing =>
      cases b with
      | raises => exact absurd rfl hb
      | missing => rfl
      | value w => cases w <;> rfl
    | value v =>
      cases b with
      | raises => exact absurd rfl hb
      | missing => cases v <;> rfl
      | value w =>
        rcases hnone with h | h
        · have hv : v = .pyNone := h
          subst hv
          cases w <;> rfl
        · have hw : w = .pyNone := h
          subst hw
          cases v <;> rfl
  · intro a b p t hp ht
    cases a with
    | missing => exact absurd hp (by simp [attr_value])
    | raises => exact absurd hp (by simp [attr_value])
    | value v =>
      cases b with
      | missing => exact absurd ht (by simp [attr_value])
      | raises => exact absurd ht (by simp [attr_value])
      | value w =>
        have hv : v = .num p := hp
        have hw : w = .num t := ht
        subst hv
        subst hw
        rfl

/-- Witness for C5 (amended): a source whose attributes are both missing
falls back to idle, and a source supplying pan 10 and tilt 90 takes the
live path. -/
theorem C5_witness :
    read_and_dispatch (some (.missing, .missing)) = .ok .idle ∧
    read_and_dispatch (some (.value (.num 10), .value (.num 90)))
      = .ok (.live 10 90) :=
  ⟨C5_idle_fallback.2.1 .missing .missing (by simp) (by simp) (Or.inl rfl),
   C5_idle_fallback.2.2 (.value (.num 10)) (.value (.num 90)) 10 90 rfl rfl⟩

/-- Mutable animation state of `FaceDisplay`: the running flag, the blink
fields, `idle_phase`, the smoothed angles and the tick interval. -/
structure FaceState where
  running : Bool
  blink : BlinkState
  idle_phase : ℚ
  smooth_pan : ℚ
  smooth_tilt : ℚ
  interval_ms : ℚ
deriving DecidableEq, Repr

/-- Source lines 119-159, one invocation of `_loop`: return immediately if
the running flag is cleared (line 120), otherwise advance the blink state
machine, then read the angle source and either smooth toward the live angles
or use idle motion, and finally re-arm via `parent.after` (line 159).  The
boolean output records whether a next tick was scheduled; an exception is
`Except.error ()` (no next tick is scheduled on that path either, since the
raise skips line 159). -/
def loopStep (s : FaceState) (now : ℚ) (src : Option (AttrRead × AttrRead))
    (fresh : ℚ) : Except Unit (FaceState × Bool) :=
  if s.running = false then .ok (s, false)
  else
    let br := blinkTick s.blink now fresh
    let s1 : FaceState := { s with blink := br.1 }
    match read_and_dispatch src with
    | .error e => .error e
    | .ok .idle => .ok (s1, true)
    | .ok (.live p t) =>
      let u := update_from_angles s1.smooth_pan s1.smooth_tilt p t
      .ok ({ s1 with smooth_pan := u.1.1, smooth_tilt := u.1.2 }, true)

/-- Source lines 168-169, `FaceDisplay.stop`: clear the running flag. -/
def stop (s : FaceState) : FaceState := { s with running := false }

/-- Source lines 161-166, `FaceDisplay.start`: return immediately when
already running, otherwise store the interval, set the running flag and
schedule the first tick (`parent.after(0, self._loop)`).  The boolean output
records whether a tick was scheduled. -/
def start (s : FaceState) (interval_ms : ℚ) : FaceState × Bool :=
  if s.running then (s, false)
  else ({ s with interval_ms := interval_ms, running := true }, true)

/-- C9: after `stop` clears the running flag, the next invocation of the tick
callback returns at its top with the state unchanged and schedules no further
tick — for every state, tick time, angle source and random draw. -/
theorem C9_stop_halts_loop :
    ∀ (s : FaceState) (now : ℚ) (src : Option (AttrRead × AttrRead))
      (fresh : ℚ),
      (stop s).running = false ∧
      loopStep (stop s) now src fresh = .ok (stop s, false) := by
  intro s now src fresh
  exact ⟨rfl, by simp [loopStep, stop]⟩

/-- C10: calling `start` while the loop is already running is a no-op: the
state (including the previously stored tick interval) is unchanged and no
second tick chain is scheduled. -/
theorem C10_start_noop (s : FaceState) (interval : ℚ)
    (h : s.running = true) : start s interval = (s, false) := by
  rw [start, if_pos h]

/-- Witness for C10 on a concrete running state with a new interval 100. -/
theorem C10_witness :
    start ⟨true, ⟨false, 0, 0, 3⟩, 0, 90, 90, 60⟩ 100
      = (⟨true, ⟨false, 0, 0, 3⟩, 0, 90, 90, 60⟩, false) :=
  C10_start_noop ⟨true, ⟨false, 0, 0, 3⟩, 0, 90, 90, 60⟩ 100 rfl

end FaceDisplay
